import Mathlib

/-!
Verification development for the career-tracker ingestion pipeline
(`src/ingestor.py`, `src/backfill.py`, `src/db_config.py`).

Python strings are modelled as `List Char` where character-level
operations matter (replace / strip / slicing) and as `String` where only
equality and record plumbing matter.  Fallible Python code is modelled
with `Option` / `Except`.  External collaborators (the Firecrawl fetch,
the LLM call, BeautifulSoup parsing, the Supabase client) enter the
model as oracle parameters; everything downstream of those oracles is
translated from the source.
-/

/-- Python `str.isspace` membership for the characters Python's default
`str.strip()` removes (ASCII whitespace plus the ASCII control
separators and the common Unicode space code points). -/
def isPySpace (c : Char) : Bool :=
  c = ' ' || c = '\t' || c = '\n' || c = '\r' || c = '\x0b' || c = '\x0c' ||
  c = '\x1c' || c = '\x1d' || c = '\x1e' || c = '\x1f' || c = '\x85' ||
  c = ' ' || c = ' ' || c = ' ' || c = ' ' || c = ' ' ||
  c = ' ' || c = ' ' || c = ' ' || c = ' ' || c = ' ' ||
  c = ' ' || c = ' ' || c = ' ' || c = ' ' || c = ' ' ||
  c = ' ' || c = ' ' || c = '　'

/-- Python `s.strip()` restricted to the left side: drop leading whitespace. -/
def pyStripL (l : List Char) : List Char := l.dropWhile isPySpace

/-- Python `s.strip()` restricted to the right side: drop trailing whitespace. -/
def pyStripR (l : List Char) : List Char :=
  (l.reverse.dropWhile isPySpace).reverse

/-- Python `s.strip()`: drop leading and trailing whitespace. -/
def pyStrip (l : List Char) : List Char := pyStripR (pyStripL l)

/-- Whether the pattern `pat` occurs as a contiguous substring
(Python `pat in s`). -/
def containsPat (pat : List Char) : List Char → Bool
  | [] => pat.isEmpty
  | b :: t => pat.isPrefixOf (b :: t) || containsPat pat t

/-- Fuel-indexed worker for `pyReplaceDel`.  One unit of fuel is spent per
step; a step either copies one character or skips one matched occurrence
of the (nonempty) pattern, so fuel `s.length` always suffices. -/
def pyReplaceDelAux (pat : List Char) : Nat → List Char → List Char
  | 0, s => s
  | _ + 1, [] => []
  | n + 1, b :: t =>
    if pat.isPrefixOf (b :: t) then
      pyReplaceDelAux pat n ((b :: t).drop pat.length)
    else
      b :: pyReplaceDelAux pat n t

/-- Python `s.replace(pat, "")` for a nonempty pattern: delete every
non-overlapping occurrence of `pat`, scanning left to right. -/
def pyReplaceDel (pat : List Char) (s : List Char) : List Char :=
  pyReplaceDelAux pat s.length s

/-- The validator `JobData.clean_location` (`src/ingestor.py` lines 44-51):
`v.replace("United States", "").replace("USA", "").strip()`, then drop a
single trailing comma when present. -/
def clean_location (v : List Char) : List Char :=
  let noCountry := pyReplaceDel ("USA".toList) (pyReplaceDel ("United States".toList) v)
  let stripped := pyStrip noCountry
  if stripped.getLast? = some ',' then stripped.dropLast else stripped

-- ## Dates (the slice of `datetime.date` semantics the resolver uses)

/-- A proleptic Gregorian calendar date, as `datetime.date` holds one. -/
structure PyDate where
  year : Nat
  month : Nat
  day : Nat
deriving DecidableEq

/-- Gregorian leap-year rule. -/
def isLeap (y : Nat) : Bool := y % 4 = 0 && (y % 100 != 0 || y % 400 = 0)

/-- Number of days in month `m` of year `y`. -/
def daysInMonth (y m : Nat) : Nat :=
  if m = 2 then (if isLeap y then 29 else 28)
  else if m = 4 || m = 6 || m = 9 || m = 11 then 30
  else 31

/-- The calendar successor of a date. -/
def nextDay (d : PyDate) : PyDate :=
  if d.day < daysInMonth d.year d.month then ⟨d.year, d.month, d.day + 1⟩
  else if d.month < 12 then ⟨d.year, d.month + 1, 1⟩
  else ⟨d.year + 1, 1, 1⟩

/-- `d + timedelta(days = n)`, one calendar day at a time.  The range check
(`datetime` rejects years beyond 9999 with `OverflowError`) is applied at
the use site, which lets this helper stay total. -/
def addDays : PyDate → Nat → PyDate
  | d, 0 => d
  | d, n + 1 => addDays (nextDay d) n

/-- Split a character list on `'-'` separators (every separator splits;
empty fields are kept), as the `%Y-%m-%d` pattern dissects its input. -/
def splitDash : List Char → List (List Char)
  | [] => [[]]
  | c :: t =>
    let r := splitDash t
    if c = '-' then [] :: r
    else
      match r with
      | [] => [[c]]
      | h :: tl => (c :: h) :: tl

/-- Numeric value of a digit string. -/
def natOfDigits (l : List Char) : Nat :=
  l.foldl (fun a c => a * 10 + (c.toNat - 48)) 0

/-- `datetime.strptime(s, "%Y-%m-%d")`, returning `none` where Python
raises `ValueError`.  CPython's `_strptime` compiles `%Y` to exactly four
digits and `%m` / `%d` to one or two digits, requires the whole string to
be consumed, and `datetime`'s constructor then enforces `1 <= year`,
`1 <= month <= 12` and `1 <= day <= days_in_month` (digits are modelled
as ASCII digits). -/
def parseDateYMD (s : String) : Option PyDate :=
  match splitDash s.toList with
  | [ys, ms, ds] =>
    if ys.length = 4 ∧ ys.all Char.isDigit ∧
       1 ≤ ms.length ∧ ms.length ≤ 2 ∧ ms.all Char.isDigit ∧
       1 ≤ ds.length ∧ ds.length ≤ 2 ∧ ds.all Char.isDigit then
      let y := natOfDigits ys
      let m := natOfDigits ms
      let d := natOfDigits ds
      if 1 ≤ y ∧ 1 ≤ m ∧ m ≤ 12 ∧ 1 ≤ d ∧ d ≤ daysInMonth y m then
        some ⟨y, m, d⟩
      else none
    else none
  | _ => none

/-- Decimal digits of `n`, zero-padded on the left to width `w`. -/
def padNat (w n : Nat) : List Char :=
  let ds := Nat.toDigits 10 n
  List.replicate (w - ds.length) '0' ++ ds

/-- `strftime("%Y-%m-%d")`: zero-padded year, month and day.  (For years
below 1000 the `%Y` padding is platform-defined in CPython; the
zero-padded form is used here, and no claim depends on such years.) -/
def fmtDate (d : PyDate) : String :=
  (padNat 4 d.year ++ '-' :: padNat 2 d.month ++ '-' :: padNat 2 d.day).asString

example : clean_location ("San Jose, California, USA,".toList) =
    "San Jose, California, ".toList := by decide
example : clean_location ("San Jose, California, ".toList) =
    "San Jose, California".toList := by decide
example : parseDateYMD "2025-01-10" = some ⟨2025, 1, 10⟩ := by decide
example : parseDateYMD "Unknown" = none := by decide
example : fmtDate (addDays ⟨2025, 1, 10⟩ 5) = "2025-01-15" := by decide
example : fmtDate (addDays ⟨2024, 2, 27⟩ 5) = "2024-03-03" := by decide
example : (addDays ⟨9999, 12, 30⟩ 5).year = 10000 := by decide

-- ## Extractor schema (`JobData`, `src/ingestor.py` lines 22-51)

/-- The six admissible values of the `job_function` field
(`Literal[...]` on line 32). -/
inductive JobFunction where
  | product
  | machineLearning
  | analytics
  | strategy
  | engineering
  | other
deriving DecidableEq

/-- The string rendering of each `job_function` value, in the order of the
`Literal` annotation. -/
def jobFunctionStr : JobFunction → String
  | .product => "Product"
  | .machineLearning => "Machine Learning"
  | .analytics => "Analytics"
  | .strategy => "Strategy"
  | .engineering => "Engineering"
  | .other => "Other"

/-- The admissible `job_function` strings. -/
def jobFunctionStrings : List String :=
  ["Product", "Machine Learning", "Analytics", "Strategy", "Engineering", "Other"]

/-- Pydantic schema-validation failure (`ValidationError`) or a failure of
the model call itself, both of which surface as exceptions from
`chain.invoke`. -/
inductive ExtractionError where
  | validationError (field : String) (value : String)
  | modelFailure (msg : String)
deriving DecidableEq

/-- The raw field values the LLM returns for the `JobData` schema, before
pydantic validation.  `deadline` is `Option` because the schema makes it
`None`-defaulted ("Return None if not found"). -/
structure RawResponse where
  company_name : String
  role_location : String
  industry : String
  role_title : String
  job_posting_date : String
  job_summary : String
  key_skills : List String
  job_function : String
  job_description : String
  job_salary : String
  deadline : Option String
deriving DecidableEq

/-- A validated `JobData` record: `job_function` has been checked against
the `Literal` set and `role_location` has passed the `clean_location`
validator. -/
structure JobData where
  company_name : String
  role_location : String
  industry : String
  role_title : String
  job_posting_date : String
  job_summary : String
  key_skills : List String
  job_function : JobFunction
  job_description : String
  job_salary : String
  deadline : Option String
deriving DecidableEq

/-- Pydantic's `Literal` check on `job_function`: the string must equal one
of the six admissible values exactly; nothing is coerced. -/
def parseJobFunction (s : String) : Except ExtractionError JobFunction :=
  if s = "Product" then .ok .product
  else if s = "Machine Learning" then .ok .machineLearning
  else if s = "Analytics" then .ok .analytics
  else if s = "Strategy" then .ok .strategy
  else if s = "Engineering" then .ok .engineering
  else if s = "Other" then .ok .other
  else .error (.validationError "job_function" s)

/-- Pydantic construction of `JobData` from the model's raw response:
validate `job_function` against the `Literal` set and run the
`clean_location` field validator; all other fields are taken as-is. -/
def mkJobData (r : RawResponse) : Except ExtractionError JobData :=
  match parseJobFunction r.job_function with
  | .error e => .error e
  | .ok f =>
    .ok {
      company_name := r.company_name
      role_location := (clean_location r.role_location.toList).asString
      industry := r.industry
      role_title := r.role_title
      job_posting_date := r.job_posting_date
      job_summary := r.job_summary
      key_skills := r.key_skills
      job_function := f
      job_description := r.job_description
      job_salary := r.job_salary
      deadline := r.deadline
    }

-- ## Field resolver (`parse_job_details` lines 218-237)

/-- Python falsiness of the `deadline` field: `None` or the empty string. -/
def pyFalsy (o : Option String) : Bool :=
  match o with
  | none => true
  | some s => s = ""

/-- An error that escapes `parse_job_details`: an extraction failure, or the
`OverflowError` that `datetime + timedelta` raises when the sum passes
`datetime.max` (year 9999) — the `except (ValueError, TypeError)` clause on
line 231 does not catch `OverflowError`. -/
inductive PipeError where
  | extraction (e : ExtractionError)
  | dateOverflow
deriving DecidableEq

/-- The deadline-resolution block of `parse_job_details` (lines 218-237):
if `result.deadline` is falsy, try `strptime(result.job_posting_date,
"%Y-%m-%d")` and set `deadline` to the posting date plus 5 days; on
`ValueError`/`TypeError` fall back to `datetime.now()` plus 5 days.  A
posting date within 5 days of 9999-12-31 makes the addition raise
`OverflowError`, which propagates. -/
def resolveDeadline (r : JobData) (now : PyDate) : Except PipeError JobData :=
  if pyFalsy r.deadline then
    match parseDateYMD r.job_posting_date with
    | some p =>
      let q := addDays p 5
      if 9999 < q.year then .error .dateOverflow
      else .ok { r with deadline := some (fmtDate q) }
    | none => .ok { r with deadline := some (fmtDate (addDays now 5)) }
  else .ok r

/-- `parse_job_details` (lines 160-237) downstream of the LLM call: the
model call plus pydantic validation are the `llmResp` oracle value; its
result is then run through the deadline-resolution block.  `now` is the
current date (`datetime.now()`). -/
def parse_job_details (llmResp : Except ExtractionError RawResponse)
    (now : PyDate) : Except PipeError JobData :=
  match llmResp with
  | .error e => .error (.extraction e)
  | .ok raw =>
    match mkJobData raw with
    | .error e => .error (.extraction e)
    | .ok j => resolveDeadline j now

-- ## Metadata sniffer and content normalizer (`scrape_job_text` lines 70-157)

/-- A Python runtime error inside the sniffer loop body. -/
inductive PyRuntimeError where
  | nameError (name : String)
deriving DecidableEq

/-- The body of the sniffer loop (lines 118-131) applied to one
`application/ld+json` script block.  The first expression evaluated is
`json.loads(script.string)`, and `src/ingestor.py` never imports `json`
(no `import json` appears among lines 1-12), so looking up the callee
raises `NameError: name 'json' is not defined` before anything else runs;
the surrounding bare `except:` then hits `continue`.  Consequently no
block ever contributes a fact, whatever its content. -/
def processScript (_script : String) : Except PyRuntimeError (List String) :=
  .error (.nameError "json")

/-- The sniffer loop over all `application/ld+json` script blocks: facts
from blocks whose body succeeds are accumulated; blocks whose body raises
are skipped silently by the bare `except: continue`. -/
def sniffMeta (scripts : List String) : List String :=
  scripts.foldr
    (fun s acc =>
      match processScript s with
      | .ok facts => facts ++ acc
      | .error _ => acc)
    []

/-- The content ceiling of the normalizer: `clean_text[:20000]` (line 142). -/
def contentCeiling : Nat := 20000

/-- Python `"\n".join(meta)`. -/
def joinNewline : List String → List Char
  | [] => []
  | [s] => s.toList
  | s :: rest => s.toList ++ '\n' :: joinNewline rest

/-- The combined document of lines 145-151: the metadata preamble block,
then the cleaned (truncated) text, inside the f-string scaffolding. -/
def finalOutput (meta : List String) (content : List Char) : List Char :=
  "\n        --- HIDDEN METADATA FOUND IN HTML ---\n        ".toList ++
  joinNewline meta ++
  "\n        \n        --- JOB DESCRIPTION CONTENT ---\n        ".toList ++
  content ++ "\n        ".toList

/-- The success path of `scrape_job_text` downstream of the external fetch
and DOM parse: `scripts` are the `application/ld+json` script bodies
BeautifulSoup finds, `cleanText` is `soup.get_text(separator="\n")` after
junk removal.  The sniffer loop cannot raise (every per-block error is
swallowed), the truncation is a slice (never a rejection), and the
function returns the combined document. -/
def scrape_job_text (scripts : List String) (cleanText : List Char) :
    Option String :=
  some ((finalOutput (sniffMeta scripts) (cleanText.take contentCeiling)).asString)

-- ## Ingestion orchestrator (`ingest_job` lines 240-283)

/-- A row handed to `supabase.table("applications").insert(...)`, as the
dict literal on lines 263-276: an association list of column name and
value. -/
def Row : Type := List (String × String)

/-- The insert payload of `ingest_job` (lines 263-276), with the keys in
source order.  `summary`/`skills` are deliberately not stored (comment on
lines 274-275), and no `deadline` key appears. -/
def buildRow (url : String) (j : JobData) : Row :=
  [("job_url", url),
   ("company_name", j.company_name),
   ("role_location", j.role_location),
   ("role_title", j.role_title),
   ("industry", j.industry),
   ("job_posting_date", j.job_posting_date),
   ("job_description", j.job_description),
   ("job_function", jobFunctionStr j.job_function),
   ("job_salary", j.job_salary),
   ("status", "Yet to Apply")]

/-- Failure of the insert call, caught on lines 282-283. -/
inductive PersistenceError where
  | dbError (msg : String)
deriving DecidableEq

/-- How one `ingest_job` call ends. -/
inductive IngestOutcome where
  | fetchError
  | pipelineError (e : PipeError)
  | dbFailed (e : PersistenceError)
  | saved
deriving DecidableEq

/-- Observable trace of one `ingest_job` call: its outcome, whether the
structured extractor was invoked, and the rows handed to the persistence
boundary's insert call. -/
structure IngestTrace where
  outcome : IngestOutcome
  extractorCalled : Bool
  inserted : List Row

/-- `ingest_job` (lines 240-283).  `scraped` is `scrape_job_text(url)`'s
result (`None` on fetch failure); `llm` is the extraction oracle mapping
the scraped document to the model's raw response or an extraction
failure; `db` is the insert call.  `if not raw_text: return` aborts on
`None` and on an empty document; an extraction error propagates out
before any insert; a database error is caught after the insert call. -/
def ingest_job (scraped : Option String)
    (llm : String → Except ExtractionError RawResponse)
    (db : Row → Except PersistenceError Unit)
    (now : PyDate) (url : String) : IngestTrace :=
  match scraped with
  | none => ⟨.fetchError, false, []⟩
  | some t =>
    if t = "" then ⟨.fetchError, false, []⟩
    else
      match parse_job_details (llm t) now with
      | .error e => ⟨.pipelineError e, true, []⟩
      | .ok j =>
        let row := buildRow url j
        match db row with
        | .ok _ => ⟨.saved, true, [row]⟩
        | .error e => ⟨.dbFailed e, true, [row]⟩

-- ## Batch repair (`backfill_descriptions`, `src/backfill.py` lines 10-50)

/-- The slice of a persisted `applications` row the repair loop reads. -/
structure DbRecord where
  id : Nat
  job_url : String
  company_name : Option String
  job_description : Option String
deriving DecidableEq

/-- One `update(...).eq("id", _)` call issued by the repair loop: the
target row id and the partial-field payload of the update. -/
structure RepairUpdate where
  id : Nat
  payload : List (String × String)
deriving DecidableEq

/-- The per-record loop of `backfill_descriptions` (lines 24-50): re-run
`scrape_job_text` on the stored URL; when it returns a document, issue an
update whose payload sets only `job_description` to that document; when
it returns `None` (or the body raises, caught on line 46), issue nothing
and move to the next record. -/
def backfillLoop (scrape : String → Option String) :
    List DbRecord → List RepairUpdate
  | [] => []
  | r :: rest =>
    match scrape r.job_url with
    | some doc => ⟨r.id, [("job_description", doc)]⟩ :: backfillLoop scrape rest
    | none => backfillLoop scrape rest

/-- `backfill_descriptions` (lines 10-50): select the rows whose stored
`job_description` is NULL (`.is_("job_description", "null")`), then run
the repair loop over them.  Note the loop re-runs only `scrape_job_text`;
`parse_job_details` is never called. -/
def backfill_descriptions (allRows : List DbRecord)
    (scrape : String → Option String) : List RepairUpdate :=
  backfillLoop scrape (allRows.filter (fun r => r.job_description.isNone))

-- ## Module initialization (`src/ingestor.py` lines 14-19)

/-- `ValueError` raised at module import time. -/
inductive ValueErrorMsg where
  | valueError (msg : String)
deriving DecidableEq

/-- Python truthiness of `os.environ.get(key)`: `None` and `""` are falsy. -/
def envTruthy (v : Option String) : Bool :=
  match v with
  | none => false
  | some s => ¬ s = ""

/-- The module-level guard of `src/ingestor.py` (lines 14-19), run once
at module-load time after `load_dotenv()`: raise `ValueError` unless both
`GOOGLE_API_KEY` and `FIRECRAWL_API_KEY` are set (and non-empty) in the
process environment.  `env` is the post-`load_dotenv` environment. -/
def ingestorModuleInit (env : String → Option String) :
    Except ValueErrorMsg Unit :=
  if envTruthy (env "GOOGLE_API_KEY") then
    if envTruthy (env "FIRECRAWL_API_KEY") then .ok ()
    else .error (.valueError "Missing FIRECRAWL_API_KEY in .env file")
  else .error (.valueError "Missing GOOGLE_API_KEY in .env file")

-- ## Helper lemmas about the string primitives

theorem isPrefixOf_append_of_isPrefixOf (pat y b : List Char)
    (h : pat.isPrefixOf y = true) : pat.isPrefixOf (y ++ b) = true := by
  induction pat generalizing y with
  | nil => simp [List.isPrefixOf]
  | cons a as ih =>
    cases y with
    | nil => simp [List.isPrefixOf] at h
    | cons c cs =>
      simp only [List.isPrefixOf, Bool.and_eq_true] at h ⊢
      exact ⟨h.1, ih cs h.2⟩

theorem containsPat_append_left (pat a y : List Char)
    (h : containsPat pat y = true) : containsPat pat (a ++ y) = true := by
  induction a with
  | nil => simpa using h
  | cons c cs ih =>
    simp only [List.cons_append, containsPat, Bool.or_eq_true]
    exact Or.inr ih

theorem containsPat_append_right (pat y b : List Char)
    (h : containsPat pat y = true) : containsPat pat (y ++ b) = true := by
  induction y with
  | nil =>
    simp only [containsPat, List.isEmpty_iff] at h
    subst h
    cases b with
    | nil => simp [containsPat]
    | cons c cs => simp [containsPat, List.isPrefixOf]
  | cons c cs ih =>
    simp only [containsPat, Bool.or_eq_true] at h
    simp only [List.cons_append, containsPat, Bool.or_eq_true]
    cases h with
    | inl hp => exact Or.inl (isPrefixOf_append_of_isPrefixOf _ _ _ hp)
    | inr hc => exact Or.inr (ih hc)

theorem containsPat_of_middle (pat a y b : List Char)
    (h : containsPat pat (a ++ y ++ b) = false) : containsPat pat y = false := by
  by_contra hne
  have hy : containsPat pat y = true := by
    cases hcp : containsPat pat y with
    | false => exact absurd hcp hne
    | true => rfl
  have hall : containsPat pat (a ++ (y ++ b)) = true :=
    containsPat_append_left _ _ _ (containsPat_append_right _ _ _ hy)
  rw [List.append_assoc] at h
  exact absurd (hall.symm.trans h) (by decide)

theorem pyReplaceDelAux_id (pat : List Char) (n : Nat) (s : List Char)
    (hn : s.length ≤ n) (h : containsPat pat s = false) :
    pyReplaceDelAux pat n s = s := by
  induction n generalizing s with
  | zero => rfl
  | succ n ih =>
    cases s with
    | nil => rfl
    | cons b t =>
      simp only [containsPat, Bool.or_eq_false_iff] at h
      have ht : t.length ≤ n := by
        simpa using Nat.le_of_succ_le_succ hn
      simp [pyReplaceDelAux, h.1, ih t ht h.2]

theorem pyReplaceDel_id (pat s : List Char)
    (h : containsPat pat s = false) : pyReplaceDel pat s = s :=
  pyReplaceDelAux_id pat s.length s le_rfl h

theorem dropWhile_head_eq_false {p : Char → Bool} :
    ∀ (l : List Char) (b : Char) (t : List Char),
      l.dropWhile p = b :: t → p b = false := by
  intro l
  induction l with
  | nil => intro b t h; simp [List.dropWhile] at h
  | cons a as ih =>
    intro b t h
    by_cases hp : p a
    · rw [List.dropWhile_cons_of_pos hp] at h
      exact ih b t h
    · rw [List.dropWhile_cons_of_neg hp] at h
      cases h
      simpa using hp

theorem dropWhile_idem {p : Char → Bool} (l : List Char) :
    (l.dropWhile p).dropWhile p = l.dropWhile p := by
  cases h : l.dropWhile p with
  | nil => rfl
  | cons b t =>
    have hb := dropWhile_head_eq_false l b t h
    rw [List.dropWhile_cons_of_neg (by simp [hb])]

theorem pyStripL_decomp (l : List Char) : ∃ a, l = a ++ pyStripL l :=
  ⟨l.takeWhile isPySpace, (List.takeWhile_append_dropWhile isPySpace l).symm⟩

theorem pyStripR_decomp (l : List Char) : ∃ b, l = pyStripR l ++ b := by
  refine ⟨(l.reverse.takeWhile isPySpace).reverse, ?_⟩
  unfold pyStripR
  conv_lhs => rw [← l.reverse_reverse, ← List.takeWhile_append_dropWhile
    (p := isPySpace) (l := l.reverse)]
  rw [List.reverse_append]

theorem pyStrip_decomp (l : List Char) : ∃ a b, l = a ++ pyStrip l ++ b := by
  obtain ⟨a, ha⟩ := pyStripL_decomp l
  obtain ⟨b, hb⟩ := pyStripR_decomp (pyStripL l)
  refine ⟨a, b, ?_⟩
  simp only [pyStrip]
  rw [List.append_assoc, ← hb, ← ha]

theorem pyStripL_idem (l : List Char) : pyStripL (pyStripL l) = pyStripL l :=
  dropWhile_idem l

theorem pyStripR_idem (l : List Char) : pyStripR (pyStripR l) = pyStripR l := by
  unfold pyStripR
  rw [List.reverse_reverse, dropWhile_idem]

theorem pyStripL_pyStripR_pyStripL (l : List Char) :
    pyStripL (pyStripR (pyStripL l)) = pyStripR (pyStripL l) := by
  cases h : pyStripR (pyStripL l) with
  | nil => simp [pyStripL, List.dropWhile]
  | cons c t =>
    obtain ⟨b, hb⟩ := pyStripR_decomp (pyStripL l)
    rw [h] at hb
    have hc : isPySpace c = false :=
      dropWhile_head_eq_false l c (t ++ b) (by simpa using hb)
    unfold pyStripL
    rw [List.dropWhile_cons_of_neg (by simp [hc])]

theorem pyStrip_idem (l : List Char) : pyStrip (pyStrip l) = pyStrip l := by
  unfold pyStrip
  rw [pyStripL_pyStripR_pyStripL, pyStripR_idem]

-- ## Claim C3 — location cleanup idempotence

/-- C3 (counterexample): `clean_location` is not idempotent, and the
spec's concrete example is off by one pass.  On
"San Jose, California, USA," a single application leaves the blank that
preceded the removed "USA" token and strips only one of the two
resulting trailing separators, yielding "San Jose, California, " —
not "San Jose, California" — and a second application changes the value
again (to exactly "San Jose, California"). -/
theorem C3_clean_location_not_idempotent :
    clean_location ("San Jose, California, USA,".toList) =
      "San Jose, California, ".toList ∧
    "San Jose, California, ".toList ≠ "San Jose, California".toList ∧
    clean_location (clean_location ("San Jose, California, USA,".toList)) ≠
      clean_location ("San Jose, California, USA,".toList) ∧
    clean_location (clean_location ("San Jose, California, USA,".toList)) =
      "San Jose, California".toList := by
  refine ⟨by decide, by decide, by decide, by decide⟩

/-- C3 (amended): location cleanup is idempotent only on strings that
contain no "United States"/"USA" occurrence and whose
whitespace-stripped form does not end in a comma; for such `v`,
`clean_location (clean_location v) = clean_location v`.  (On the spec's
example the first application instead yields "San Jose, California, ",
and the second "San Jose, California".) -/
theorem C3_clean_location_conditionally_idempotent (v : List Char)
    (h1 : containsPat ("United States".toList) v = false)
    (h2 : containsPat ("USA".toList) v = false)
    (h3 : (pyStrip v).getLast? ≠ some ',') :
    clean_location (clean_location v) = clean_location v := by
  have e1 : pyReplaceDel ("United States".toList) v = v := pyReplaceDel_id _ _ h1
  have e2 : pyReplaceDel ("USA".toList) v = v := pyReplaceDel_id _ _ h2
  have hv : clean_location v = pyStrip v := by
    simp only [clean_location]
    rw [e1, e2, if_neg h3]
  rw [hv]
  obtain ⟨a, b, hab⟩ := pyStrip_decomp v
  have h1s : containsPat ("United States".toList) (pyStrip v) = false :=
    containsPat_of_middle _ a _ b (by rw [← hab]; exact h1)
  have h2s : containsPat ("USA".toList) (pyStrip v) = false :=
    containsPat_of_middle _ a _ b (by rw [← hab]; exact h2)
  simp only [clean_location]
  rw [pyReplaceDel_id _ _ h1s, pyReplaceDel_id _ _ h2s, pyStrip_idem,
    if_neg h3]

/-- C3 (witness): the conditional idempotence applied to a concrete
already-country-free location. -/
theorem C3_clean_location_idempotent_witness :
    clean_location (clean_location ("Austin, TX".toList)) =
      clean_location ("Austin, TX".toList) :=
  C3_clean_location_conditionally_idempotent ("Austin, TX".toList)
    (by decide) (by decide) (by decide)

deriving instance DecidableEq for Except

-- ## Claim C1 — deadline resolution

/-- A concrete extracted record with no deadline and a posting date within
five days of `datetime.max`. -/
def jdOverflow : JobData where
  company_name := "Acme"
  role_location := "Austin, TX"
  industry := "Tech"
  role_title := "Data Scientist"
  job_posting_date := "9999-12-30"
  job_summary := "A role."
  key_skills := ["SQL"]
  job_function := .product
  job_description := "Responsibilities."
  job_salary := "Not Specified"
  deadline := none

/-- C1 (counterexample): for the extracted record with no deadline and
posting date "9999-12-30" — which parses as an absolute YYYY-MM-DD
date — the resolution does NOT set deadline = posting date + 5 days:
the addition passes `datetime.max`, raising `OverflowError` (uncaught by
the `except (ValueError, TypeError)` clause), so resolution errors out
instead of producing a record. -/
theorem C1_overflow_counterexample :
    parseDateYMD jdOverflow.job_posting_date = some ⟨9999, 12, 30⟩ ∧
    resolveDeadline jdOverflow ⟨2025, 9, 1⟩ = .error .dateOverflow := by
  refine ⟨by decide, by decide⟩

/-- C1 (amended): deadline resolution follows the three-branch rule —
a truthy extractor deadline is kept unchanged; otherwise a posting date
parsing as YYYY-MM-DD yields deadline = posting date + 5 days *provided
the sum does not pass the maximum representable date (year 9999), the
one case in which the addition overflows instead*; otherwise deadline =
extraction time + 5 days.  In particular posting date "2025-01-10"
yields "2025-01-15", and "Unknown" falls back to now + 5 days. -/
theorem C1_deadline_resolution_rule (r : JobData) (now : PyDate) :
    (pyFalsy r.deadline = false → resolveDeadline r now = .ok r) ∧
    (pyFalsy r.deadline = true →
      ∀ p, parseDateYMD r.job_posting_date = some p →
        (addDays p 5).year ≤ 9999 →
        resolveDeadline r now = .ok { r with deadline := some (fmtDate (addDays p 5)) }) ∧
    (pyFalsy r.deadline = true →
      parseDateYMD r.job_posting_date = none →
      resolveDeadline r now = .ok { r with deadline := some (fmtDate (addDays now 5)) }) ∧
    (pyFalsy r.deadline = true → r.job_posting_date = "2025-01-10" →
      resolveDeadline r now = .ok { r with deadline := some "2025-01-15" }) ∧
    (pyFalsy r.deadline = true → r.job_posting_date = "Unknown" →
      resolveDeadline r now = .ok { r with deadline := some (fmtDate (addDays now 5)) }) := by
  refine ⟨?_, ?_, ?_, ?_, ?_⟩
  · intro h
    simp [resolveDeadline, h]
  · intro h p hp hy
    simp only [resolveDeadline, h, if_true, hp]
    rw [if_neg (by omega)]
  · intro h hp
    simp [resolveDeadline, h, hp]
  · intro h hp
    have hparse : parseDateYMD r.job_posting_date = some ⟨2025, 1, 10⟩ := by
      rw [hp]; decide
    have hfmt : fmtDate (addDays ⟨2025, 1, 10⟩ 5) = "2025-01-15" := by decide
    simp only [resolveDeadline, h, if_true, hparse]
    rw [if_neg (by decide)]
    rw [show fmtDate (addDays ⟨2025, 1, 10⟩ 5) = "2025-01-15" from hfmt]
  · intro h hp
    have hparse : parseDateYMD r.job_posting_date = none := by
      rw [hp]; decide
    simp [resolveDeadline, h, hparse]

/-- A concrete extracted record with no deadline and posting date
"2025-01-10", the spec's own example. -/
def jdJan10 : JobData where
  company_name := "Acme"
  role_location := "Austin, TX"
  industry := "Tech"
  role_title := "Data Scientist"
  job_posting_date := "2025-01-10"
  job_summary := "A role."
  key_skills := ["SQL"]
  job_function := .product
  job_description := "Responsibilities."
  job_salary := "Not Specified"
  deadline := none

/-- C1 (witness): the amended rule applied to the spec's example record:
posting date "2025-01-10" resolves to deadline "2025-01-15". -/
theorem C1_deadline_resolution_witness :
    resolveDeadline jdJan10 ⟨2025, 6, 1⟩ =
      .ok { jdJan10 with deadline := some "2025-01-15" } :=
  (C1_deadline_resolution_rule jdJan10 ⟨2025, 6, 1⟩).2.2.2.1 (by decide) rfl

-- ## Claim C2 — deadline at the persistence boundary

theorem buildRow_lookup_deadline (url : String) (j : JobData) :
    (buildRow url j).lookup "deadline" = none := rfl

/-- C2 (counterexample): even for a record whose deadline the resolution
rule has populated ("2025-01-15"), the row `ingest_job` hands to the
insert call has no "deadline" column at all. -/
theorem C2_row_has_no_deadline_column :
    ({ jdJan10 with deadline := some "2025-01-15" } : JobData).deadline ≠ none ∧
    (buildRow "https://example.com/job" { jdJan10 with deadline := some "2025-01-15" }).lookup
      "deadline" = none ∧
    (buildRow "https://example.com/job" { jdJan10 with deadline := some "2025-01-15" }).map
      Prod.fst =
      ["job_url", "company_name", "role_location", "role_title", "industry",
       "job_posting_date", "job_description", "job_function", "job_salary",
       "status"] := by
  refine ⟨by decide, rfl, rfl⟩

/-- C2 (amended): the resolution rule does leave every successfully
resolved record with a non-null in-memory deadline, but the row
`ingest_job` inserts omits the deadline column entirely, so the persisted
record carries no deadline value. -/
theorem C2_deadline_resolved_but_not_persisted (r j : JobData) (now : PyDate)
    (url : String) (h : resolveDeadline r now = .ok j) :
    (∃ s, j.deadline = some s) ∧
    (buildRow url j).lookup "deadline" = none := by
  refine ⟨?_, buildRow_lookup_deadline url j⟩
  by_cases hf : pyFalsy r.deadline = true
  · cases hp : parseDateYMD r.job_posting_date with
    | some p =>
      by_cases hy : 9999 < (addDays p 5).year
      · simp [resolveDeadline, hf, hp, hy] at h
      · simp [resolveDeadline, hf, hp, hy] at h
        exact ⟨_, by rw [← h]⟩
    | none =>
      simp [resolveDeadline, hf, hp] at h
      exact ⟨_, by rw [← h]⟩
  · simp [resolveDeadline, hf] at h
    cases hd : r.deadline with
    | none => simp [pyFalsy, hd] at hf
    | some s =>
      refine ⟨s, ?_⟩
      rw [← h]
      exact hd

/-- C2 (witness): the amended statement at the spec's example record. -/
theorem C2_deadline_not_persisted_witness :
    (∃ s, ({ jdJan10 with deadline := some "2025-01-15" } : JobData).deadline = some s) ∧
    (buildRow "https://example.com/j" { jdJan10 with deadline := some "2025-01-15" }).lookup
      "deadline" = none :=
  C2_deadline_resolved_but_not_persisted jdJan10
    { jdJan10 with deadline := some "2025-01-15" } ⟨2025, 6, 1⟩
    "https://example.com/j" (by decide)

-- ## Claim C6 — job-function classification closed set

/-- C6: the `Literal` check behind `job_function` accepts exactly the six
fixed strings, never coerces (an accepted value maps back to the exact
input string, and every enum value renders inside the set), and an
out-of-set extractor response fails validation so that `ingest_job` hands
nothing to the persistence boundary. -/
theorem C6_job_function_closed_set (s : String) :
    ((∃ f, parseJobFunction s = .ok f) ↔ s ∈ jobFunctionStrings) ∧
    (∀ f, parseJobFunction s = .ok f → jobFunctionStr f = s) ∧
    (∀ f : JobFunction, jobFunctionStr f ∈ jobFunctionStrings) ∧
    (∀ (llm : String → Except ExtractionError RawResponse)
       (db : Row → Except PersistenceError Unit) (now : PyDate)
       (url t : String) (raw : RawResponse),
      llm t = .ok raw → raw.job_function ∉ jobFunctionStrings →
      (ingest_job (some t) llm db now url).inserted = [] ∧
      (ingest_job (some t) llm db now url).outcome ≠ .saved) := by
  have hmain : ∀ u : String, u ∉ jobFunctionStrings →
      parseJobFunction u = .error (.validationError "job_function" u) := by
    intro u hu
    simp only [jobFunctionStrings, List.mem_cons, List.not_mem_nil, or_false,
      not_or] at hu
    obtain ⟨n1, n2, n3, n4, n5, n6⟩ := hu
    simp [parseJobFunction, n1, n2, n3, n4, n5, n6]
  refine ⟨?_, ?_, ?_, ?_⟩
  · constructor
    · rintro ⟨f, hf⟩
      by_contra hs
      rw [hmain s hs] at hf
      cases hf
    · intro hs
      unfold parseJobFunction
      simp only [jobFunctionStrings, List.mem_cons, List.not_mem_nil,
        or_false] at hs
      rcases hs with h | h | h | h | h | h <;> subst h <;> simp
  · intro f hf
    unfold parseJobFunction at hf
    split_ifs at hf with h1 h2 h3 h4 h5 h6 <;> cases hf <;>
      simp_all [jobFunctionStr]
  · intro f
    cases f <;> simp [jobFunctionStr, jobFunctionStrings]
  · intro llm db now url t raw hw hfn
    have hpf := hmain raw.job_function hfn
    by_cases ht : t = ""
    · subst ht
      refine ⟨rfl, ?_⟩
      intro hcon
      cases hcon
    · have hparse : parse_job_details (llm t) now =
          .error (.extraction (.validationError "job_function" raw.job_function)) := by
        rw [hw]
        simp [parse_job_details, mkJobData, hpf]
      constructor
      · simp [ingest_job, ht, hparse]
      · simp [ingest_job, ht, hparse]

/-- A raw extractor response whose `job_function` lies outside the six
admissible values. -/
def rawOutOfSet : RawResponse where
  company_name := "Acme"
  role_location := "Austin, TX"
  industry := "Tech"
  role_title := "Data Scientist"
  job_posting_date := "2025-01-10"
  job_summary := "A role."
  key_skills := ["SQL"]
  job_function := "Gardening"
  job_description := "Responsibilities."
  job_salary := "Not Specified"
  deadline := none

/-- C6 (witness): an extractor response classifying the role as
"Gardening" is rejected and nothing reaches the insert call. -/
theorem C6_out_of_set_rejected_witness :
    (ingest_job (some "doc") (fun _ => .ok rawOutOfSet) (fun _ => .ok ())
      ⟨2025, 1, 1⟩ "https://example.com/j").inserted = [] :=
  ((C6_job_function_closed_set "Gardening").2.2.2 (fun _ => .ok rawOutOfSet)
    (fun _ => .ok ()) ⟨2025, 1, 1⟩ "https://example.com/j" "doc" rawOutOfSet
    rfl (by decide)).1

-- ## Claim C7 — fetch failure short-circuits the pipeline

/-- C7: when the fetch fails (`scrape_job_text` returned `None`) or
produced an empty document, `ingest_job` reports the fetch failure,
never calls the structured extractor, and hands no row to the
persistence boundary. -/
theorem C7_fetch_failure_short_circuits
    (llm : String → Except ExtractionError RawResponse)
    (db : Row → Except PersistenceError Unit) (now : PyDate) (url : String) :
    ingest_job none llm db now url =
      ⟨.fetchError, false, []⟩ ∧
    ingest_job (some "") llm db now url =
      ⟨.fetchError, false, []⟩ := by
  refine ⟨rfl, ?_⟩
  simp [ingest_job]

-- ## Claim C8 — sniffing never fails the pipeline

theorem sniffMeta_eq_nil (scripts : List String) : sniffMeta scripts = [] := by
  induction scripts with
  | nil => rfl
  | cons s rest ih => simp [sniffMeta, processScript]

/-- C8: metadata sniffing never aborts the fetch or the extraction: every
per-block error is swallowed by the bare `except: continue`, blocks that
fail contribute zero facts, and the combined document is still produced.
(With the unbound `json` name every block fails, so the fact list is
empty outright.) -/
theorem C8_sniffer_never_fails (scripts : List String) (cleanText : List Char) :
    sniffMeta scripts = [] ∧
    (scrape_job_text scripts cleanText).isSome = true := by
  exact ⟨sniffMeta_eq_nil scripts, rfl⟩

-- ## Claim C9 — truncation, not rejection

/-- C9: the cleaned-text portion of the document handed to extraction is
the slice `clean_text[:20000]`, hence at most 20,000 characters, and
oversized content still yields a document (truncated) rather than a
failure. -/
theorem C9_truncation_not_rejection (scripts : List String)
    (cleanText : List Char) :
    scrape_job_text scripts cleanText =
      some ((finalOutput (sniffMeta scripts)
        (cleanText.take contentCeiling)).asString) ∧
    (cleanText.take contentCeiling).length ≤ 20000 := by
  refine ⟨rfl, ?_⟩
  calc (cleanText.take contentCeiling).length
      ≤ contentCeiling := by
        rw [List.length_take]
        exact Nat.min_le_left _ _
    _ = 20000 := rfl

-- ## Claim C4 — the HARD_FACT lines are never emitted

/-- The JSON-LD block of the claim's end-to-end example, embedded in the
fetched HTML. -/
def c4Script : String :=
  "\x7b\"@type\": \"JobPosting\", \"datePosted\": \"2025-03-01\"\x7d"

/-- The free text of the claim's end-to-end example. -/
def c4Text : List Char := "Posted 10 days ago".toList

/-- C4: contrary to the claim, the fetched HTML containing
`"datePosted": "2025-03-01"` in a JSON-LD metadata block yields NO
`HARD_FACT_DATE_POSTED` line: the loop body's first expression is
`json.loads(...)` and the module never imports `json`, so every block
raises `NameError` into the bare `except` and the sniffed-fact list
stays empty.  The document handed to extraction contains no
`HARD_FACT_DATE_POSTED` text at all. -/
theorem C4_hard_fact_line_never_emitted :
    processScript c4Script = .error (.nameError "json") ∧
    sniffMeta [c4Script] = [] ∧
    scrape_job_text [c4Script] c4Text =
      some ((finalOutput [] (c4Text.take contentCeiling)).asString) ∧
    containsPat ("HARD_FACT_DATE_POSTED".toList)
      (finalOutput (sniffMeta [c4Script]) (c4Text.take contentCeiling)) =
      false := by
  refine ⟨rfl, rfl, rfl, by decide⟩

-- ## Claim C5 — batch repair

theorem backfillLoop_mem (scrape : String → Option String) :
    ∀ (rows : List DbRecord) (u : RepairUpdate),
      u ∈ backfillLoop scrape rows →
      ∃ r ∈ rows, ∃ doc, scrape r.job_url = some doc ∧
        u = ⟨r.id, [("job_description", doc)]⟩ := by
  intro rows
  induction rows with
  | nil => intro u hu; simp [backfillLoop] at hu
  | cons r rest ih =>
    intro u hu
    cases hs : scrape r.job_url with
    | some doc =>
      rw [backfillLoop, hs] at hu
      rcases List.mem_cons.mp hu with h | h
      · exact ⟨r, List.mem_cons_self r rest, doc, hs, h⟩
      · obtain ⟨rr, hmem, d, hd, he⟩ := ih u h
        exact ⟨rr, List.mem_cons_of_mem r hmem, d, hd, he⟩
    | none =>
      rw [backfillLoop, hs] at hu
      obtain ⟨rr, hmem, d, hd, he⟩ := ih u hu
      exact ⟨rr, List.mem_cons_of_mem r hmem, d, hd, he⟩


/-- A persisted record with a NULL description, as batch repair selects. -/
def c5Row : DbRecord where
  id := 7
  job_url := "https://example.com/job/7"
  company_name := some "Acme"
  job_description := none

/-- The cleaned page text of the re-fetch in the C5 counterexample. -/
def c5Text : List Char := "Data Scientist role at Acme.".toList

/-- The document the re-fetch produces (the raw combined document of
`scrape_job_text`, scaffolding included). -/
def c5Doc : String :=
  (finalOutput (sniffMeta []) (c5Text.take contentCeiling)).asString

/-- C5 (counterexample): batch repair does not re-run Fetch→Extract — it
re-runs Fetch only and stores the fetched document verbatim.  For a
record with a NULL description whose re-fetch succeeds, the single
update writes the raw combined document of `scrape_job_text` — still
carrying the "--- JOB DESCRIPTION CONTENT ---" scaffolding — into
`job_description`; no extraction output is involved. -/
theorem C5_backfill_stores_raw_document :
    backfill_descriptions [c5Row] (fun _ => scrape_job_text [] c5Text) =
      [⟨7, [("job_description", c5Doc)]⟩] ∧
    containsPat ("--- JOB DESCRIPTION CONTENT ---".toList) (c5Doc.toList) =
      true := by
  refine ⟨rfl, by decide⟩

/-- C5 (amended): batch repair re-runs Fetch only (the extractor is never
involved) over the records whose stored description is NULL; on a
successful re-fetch it issues an update whose payload touches exactly the
`job_description` field, writing the fetched document; on a failed
re-fetch it issues no update for that record and continues with the
remaining records unchanged. -/
theorem C5_backfill_frame_and_continuation (scrape : String → Option String) :
    (∀ (rows : List DbRecord) (u : RepairUpdate),
      u ∈ backfillLoop scrape rows →
      u.payload.map Prod.fst = ["job_description"]) ∧
    (∀ (r : DbRecord) (rest : List DbRecord), scrape r.job_url = none →
      backfillLoop scrape (r :: rest) = backfillLoop scrape rest) ∧
    (∀ (r : DbRecord) (rest : List DbRecord) (doc : String),
      scrape r.job_url = some doc →
      backfillLoop scrape (r :: rest) =
        ⟨r.id, [("job_description", doc)]⟩ :: backfillLoop scrape rest) ∧
    (∀ (allRows : List DbRecord) (u : RepairUpdate),
      u ∈ backfill_descriptions allRows scrape →
      ∃ r ∈ allRows, r.job_description = none ∧ u.id = r.id) := by
  refine ⟨?_, ?_, ?_, ?_⟩
  · intro rows u hu
    obtain ⟨r, _, doc, _, he⟩ := backfillLoop_mem scrape rows u hu
    rw [he]
    rfl
  · intro r rest hs
    rw [backfillLoop, hs]
  · intro r rest doc hs
    rw [backfillLoop, hs]
  · intro allRows u hu
    obtain ⟨r, hmem, doc, _, he⟩ :=
      backfillLoop_mem scrape _ u hu
    rw [List.mem_filter] at hmem
    refine ⟨r, hmem.1, ?_, ?_⟩
    · cases hd : r.job_description with
      | none => rfl
      | some s => rw [hd] at hmem; simp [Option.isNone] at hmem
    · rw [he]

/-- C5 (witness): the amended statement at a concrete record and fetch
oracle: a successful re-fetch prepends exactly one single-field update. -/
theorem C5_backfill_witness :
    backfillLoop (fun _ => some "doc") [c5Row] =
      [⟨7, [("job_description", "doc")]⟩] := by
  have h := ((C5_backfill_frame_and_continuation
    (fun _ => some "doc")).2.2.1 c5Row [] "doc" rfl)
  rw [h]
  rfl

-- ## Claim C10 — configuration gate at import time

/-- C10: the ingestor module refuses to load without both API keys: if
either `GOOGLE_API_KEY` or `FIRECRAWL_API_KEY` is absent from the
(post-`load_dotenv`) environment, import raises `ValueError`, and the
module's functions are reachable only when both keys are present and
non-empty. -/
theorem C10_module_init_requires_keys (env : String → Option String) :
    (env "GOOGLE_API_KEY" = none ∨ env "FIRECRAWL_API_KEY" = none →
      ∃ m, ingestorModuleInit env = .error (.valueError m)) ∧
    (ingestorModuleInit env = .ok () →
      envTruthy (env "GOOGLE_API_KEY") = true ∧
      envTruthy (env "FIRECRAWL_API_KEY") = true) := by
  constructor
  · rintro (h | h)
    · refine ⟨"Missing GOOGLE_API_KEY in .env file", ?_⟩
      rw [ingestorModuleInit, h]
      rfl
    · by_cases hg : envTruthy (env "GOOGLE_API_KEY") = true
      · refine ⟨"Missing FIRECRAWL_API_KEY in .env file", ?_⟩
        rw [ingestorModuleInit, if_pos hg, h]
        rfl
      · refine ⟨"Missing GOOGLE_API_KEY in .env file", ?_⟩
        rw [ingestorModuleInit, if_neg hg]
  · intro h
    by_cases hg : envTruthy (env "GOOGLE_API_KEY") = true
    · by_cases hf : envTruthy (env "FIRECRAWL_API_KEY") = true
      · exact ⟨hg, hf⟩
      · rw [ingestorModuleInit, if_pos hg, if_neg hf] at h
        cases h
    · rw [ingestorModuleInit, if_neg hg] at h
      cases h

/-- C10 (witness): with no environment at all, import fails with a
`ValueError`. -/
theorem C10_missing_keys_witness :
    ∃ m, ingestorModuleInit (fun _ => none) = .error (.valueError m) :=
  (C10_module_init_requires_keys (fun _ => none)).1 (Or.inl rfl)
